import Mathlib

set_option maxHeartbeats 1000000

/-! Shallow embedding of the automation scripts (src/b.py, src/c.py):
device-bridge control, scenario generation with fallback, the interaction
simulator, the cycle controller and its session statistics. External
collaborators (the adb command, the HTTP API, the browser) are modelled by
explicit behaviour values passed as inputs; randomness is modelled by
explicit draw values constrained to the ranges the library guarantees. -/

/-! ## Device bridge (class AndroidAirplaneMode, src/b.py lines 16-92 and src/c.py lines 373-418) -/

/-- Behaviour of one invocation of the external adb command through
subprocess.run: either the call raises (command missing) or it completes
with an exit status and captured standard output. -/
inductive RunResult where
  | raised
  | completed (returncode : Int) (stdout : String)
deriving DecidableEq

/-- Whether the first character list is an initial segment of the second. -/
def leadsWith : List Char → List Char → Bool
  | [], _ => true
  | _ :: _, [] => false
  | p :: ps, c :: cs => (p == c) && leadsWith ps cs

/-- Whether the pattern occurs as a contiguous run inside the list. -/
def occursIn (pat : List Char) : List Char → Bool
  | [] => leadsWith pat []
  | c :: cs => leadsWith pat (c :: cs) || occursIn pat cs

/-- Substring test, embedding the Python containment test on strings. -/
def strContains (s pat : String) : Bool :=
  occursIn pat.toList s.toList

/-- Python str.split with no argument: the maximal whitespace-free runs,
with empty runs dropped. The second argument accumulates the current run
in reverse. -/
def wordsAux : List Char → List Char → List (List Char)
  | [], acc => if acc.isEmpty then [] else [acc.reverse]
  | c :: cs, acc =>
    if c.isWhitespace then
      if acc.isEmpty then wordsAux cs [] else acc.reverse :: wordsAux cs []
    else wordsAux cs (c :: acc)

/-- subprocess.run with check=True: raises CalledProcessError when the exit
status is nonzero and FileNotFoundError when the command is missing; both
are exceptions, modelled as the error case. -/
def runChecked (r : RunResult) : Except String Unit :=
  match r with
  | RunResult.raised => Except.error "FileNotFoundError"
  | RunResult.completed rc _ => if rc = 0 then Except.ok () else Except.error "CalledProcessError"

/-- AndroidAirplaneMode.check_device_connection (src/b.py lines 16-29): runs
the adb devices command without check=True, so a nonzero exit status does
not raise; the bare except returns false when the command raises; otherwise
the result is whether the text device occurs in the captured stdout. -/
def check_device_connection (r : RunResult) : Bool :=
  match r with
  | RunResult.raised => false
  | RunResult.completed _ out => strContains out "device"

/-- The src/c.py variant (lines 373-386) additionally requires the word
device among the whitespace-separated tokens of stdout. -/
def check_device_connection_c (r : RunResult) : Bool :=
  match r with
  | RunResult.raised => false
  | RunResult.completed _ out =>
      strContains out "device" && (wordsAux out.toList []).contains "device".toList

/-- AndroidAirplaneMode.set_airplane_mode (src/b.py lines 42-63, identical
try body in src/c.py lines 388-404): runs the settings-put command and then
the broadcast command, both with check=True; every exception from either
command is caught and converted to false; true is returned only when both
commands complete with exit status zero. -/
def set_airplane_mode (cmd1 cmd2 : RunResult) : Bool :=
  match (do runChecked cmd1; runChecked cmd2 : Except String Unit) with
  | Except.ok _ => true
  | Except.error _ => false

/-- AndroidAirplaneMode.airplane_mode_cycle (src/b.py lines 74-92, src/c.py
lines 406-418): calls set_airplane_mode true, and on its success, after the
sleep, calls set_airplane_mode false; returns true only when both calls
succeed. The four RunResult inputs are the behaviours of the two commands
of the enable call followed by the two commands of the disable call. The
device radio state is modelled from the collaborator contract of the spec:
a set call that reports success leaves the mode equal to its argument and a
set call that reports failure leaves the mode unchanged. The result is the
returned boolean, the final device mode, and the number of set calls made
(showing that no retry or rollback call is issued). -/
def airplane_mode_cycle (e1 e2 d1 d2 : RunResult) (mode : Bool) : Bool × Bool × Nat :=
  if set_airplane_mode e1 e2 then
    if set_airplane_mode d1 d2 then (true, false, 2)
    else (false, true, 2)
  else (false, mode, 1)

/-! ## Scenario data model (class GPTScenarioGenerator, src/c.py lines 50-237) -/

/-- The interaction_pattern block of a scenario dictionary. -/
structure InteractionPattern where
  scroll_behavior : String
  reading_time : ℚ
  click_probability : ℚ
  back_probability : ℚ
deriving DecidableEq

/-- The human_delays block of a scenario dictionary. -/
structure HumanDelays where
  typing_delay : ℚ
  reading_delay : ℚ
  decision_delay : ℚ
deriving DecidableEq

/-- A browsing scenario dictionary as built by src/c.py. -/
structure Scenario where
  main_action : String
  search_queries : List String
  interaction_pattern : InteractionPattern
  navigation_sequence : List String
  human_delays : HumanDelays
deriving DecidableEq

/-- The random draws consumed while building the fallback table: randintD
models random.randint (inclusive integer bounds) and uniformD models
random.uniform (inclusive rational bounds); choice4 models random.choice
over the four preset scenarios. The two membership fields record the
guarantee of the random library that a draw lies between its bounds. -/
structure RandomSource where
  randintD : Int → Int → Int
  uniformD : ℚ → ℚ → ℚ
  choice4 : Fin 4
  randint_mem : ∀ a b : Int, a ≤ b → a ≤ randintD a b ∧ randintD a b ≤ b
  uniform_mem : ∀ a b : ℚ, a ≤ b → a ≤ uniformD a b ∧ uniformD a b ≤ b

/-- First preset of GPTScenarioGenerator.get_fallback_scenario (src/c.py
lines 145-166). -/
def fallback1 (rng : RandomSource) : Scenario :=
  { main_action := "일반적인 검색"
  , search_queries := ["오늘 날씨", "최신 뉴스", "맛집 추천"]
  , interaction_pattern :=
    { scroll_behavior := "medium"
    , reading_time := (rng.randintD 3 8 : ℚ)
    , click_probability := 3/10
    , back_probability := 1/5 }
  , navigation_sequence := ["네이버 메인 접속", "검색어 입력", "검색 결과 확인", "페이지 스크롤", "새 검색 또는 종료"]
  , human_delays :=
    { typing_delay := rng.uniformD (1/10) (3/10)
    , reading_delay := (rng.randintD 2 5 : ℚ)
    , decision_delay := rng.uniformD 1 3 } }

/-- Second preset (src/c.py lines 167-189). -/
def fallback2 (rng : RandomSource) : Scenario :=
  { main_action := "쇼핑 탐색"
  , search_queries := ["겨울 패딩", "스마트폰 추천", "생활용품"]
  , interaction_pattern :=
    { scroll_behavior := "slow"
    , reading_time := (rng.randintD 5 12 : ℚ)
    , click_probability := 2/5
    , back_probability := 3/10 }
  , navigation_sequence := ["네이버 메인 접속", "쇼핑 검색", "상품 확인", "상세 페이지 방문", "가격 비교", "뒤로가기"]
  , human_delays :=
    { typing_delay := rng.uniformD (3/20) (2/5)
    , reading_delay := (rng.randintD 3 8 : ℚ)
    , decision_delay := rng.uniformD 2 5 } }

/-- Third preset (src/c.py lines 190-212). -/
def fallback3 (rng : RandomSource) : Scenario :=
  { main_action := "뉴스 및 정보 확인"
  , search_queries := ["코로나 현황", "주식 시세", "연예 뉴스"]
  , interaction_pattern :=
    { scroll_behavior := "fast"
    , reading_time := (rng.randintD 4 9 : ℚ)
    , click_probability := 1/2
    , back_probability := 1/10 }
  , navigation_sequence := ["네이버 메인 접속", "뉴스 섹션 방문", "기사 클릭", "댓글 확인", "관련 기사 클릭", "메인으로 복귀"]
  , human_delays :=
    { typing_delay := rng.uniformD (2/25) (1/4)
    , reading_delay := (rng.randintD 2 6 : ℚ)
    , decision_delay := rng.uniformD (1/2) 2 } }

/-- Fourth preset (src/c.py lines 213-235). -/
def fallback4 (rng : RandomSource) : Scenario :=
  { main_action := "여행 정보 검색"
  , search_queries := ["제주도 여행", "부산 맛집", "호텔 예약"]
  , interaction_pattern :=
    { scroll_behavior := "random"
    , reading_time := (rng.randintD 6 15 : ℚ)
    , click_probability := 3/5
    , back_probability := 2/5 }
  , navigation_sequence := ["네이버 메인 접속", "여행 검색", "블로그 후기 확인", "지도 확인", "예약 사이트 방문", "다른 지역 검색"]
  , human_delays :=
    { typing_delay := rng.uniformD (1/5) (1/2)
    , reading_delay := (rng.randintD 4 10 : ℚ)
    , decision_delay := rng.uniformD 2 6 } }

/-- The fixed in-memory fallback table of GPTScenarioGenerator.get_fallback_scenario
(src/c.py lines 142-237): four presets. -/
def fallbackTable (rng : RandomSource) : List Scenario :=
  [fallback1 rng, fallback2 rng, fallback3 rng, fallback4 rng]

/-- random.choice over the fallback table (src/c.py line 237). -/
def get_fallback_scenario (rng : RandomSource) : Scenario :=
  (fallbackTable rng).getD rng.choice4.val (fallback1 rng)

/-- Behaviour of the external text-generation call inside the try block of
generate_browsing_scenario: either requests.post raises (timeout, network
error), or a response arrives with an HTTP status; for a 200 status the
combined outcome of response.json, the brace slicing and json.loads is
either a parsed scenario or a failure (non-JSON body, malformed JSON), both
library calls being external to this repository. -/
inductive ApiBehavior where
  | raises
  | response (status : Nat) (parsed : Option Scenario)

/-- GPTScenarioGenerator.generate_browsing_scenario (src/c.py lines 62-140):
with no API key the fallback is used directly; a raised request, a non-200
status and an unparsable body each fall back; a parsed 200 body is returned
as the scenario with no validation. Every exception of the try body is
caught at line 138, so the function always returns a scenario. -/
def generate_browsing_scenario (rng : RandomSource) (api_key : Option String)
    (beh : ApiBehavior) : Scenario :=
  match api_key with
  | none => get_fallback_scenario rng
  | some _ =>
    match beh with
    | ApiBehavior.raises => get_fallback_scenario rng
    | ApiBehavior.response status parsed =>
      if status = 200 then
        match parsed with
        | some sc => sc
        | none => get_fallback_scenario rng
      else get_fallback_scenario rng

/-- Whether the external call failed in one of the ways the spec lists:
missing credential, raised request, non-200 status, or unparsable body. -/
def apiFailed (api_key : Option String) (beh : ApiBehavior) : Bool :=
  match api_key with
  | none => true
  | some _ =>
    match beh with
    | ApiBehavior.raises => true
    | ApiBehavior.response status parsed => (status != 200) || parsed.isNone

/-- The data-model invariants of a ScenarioDescriptor stated in the spec:
both probabilities lie in the unit interval and the reading time is
nonnegative. -/
def validScenario (sc : Scenario) : Prop :=
  0 ≤ sc.interaction_pattern.click_probability ∧
    sc.interaction_pattern.click_probability ≤ 1 ∧
    0 ≤ sc.interaction_pattern.back_probability ∧
    sc.interaction_pattern.back_probability ≤ 1 ∧
    0 ≤ sc.interaction_pattern.reading_time

instance (sc : Scenario) : Decidable (validScenario sc) := by
  unfold validScenario
  infer_instance

/-- A concrete deterministic random source: every draw returns its lower
bound and choice picks the first preset. -/
def rng0 : RandomSource where
  randintD := fun a _ => a
  uniformD := fun a _ => a
  choice4 := 0
  randint_mem := fun a _ h => ⟨le_refl a, h⟩
  uniform_mem := fun a _ h => ⟨le_refl a, h⟩

/-- A structurally well-formed scenario whose click probability lies
outside the unit interval, as a 200 response may parse to. -/
def badScenario : Scenario :=
  { main_action := "검색"
  , search_queries := ["오늘 날씨"]
  , interaction_pattern :=
    { scroll_behavior := "medium"
    , reading_time := 5
    , click_probability := 2
    , back_probability := 1/5 }
  , navigation_sequence := []
  , human_delays := { typing_delay := 1/5, reading_delay := 3, decision_delay := 2 } }

/-! ## Delay model (HumanLikeActions.human_scroll, src/c.py lines 267-311) -/

/-- random.uniform a b written as a function of one unit draw u: the value
a + u * (b - a), which sweeps the closed interval as u sweeps the unit
interval. -/
def uniformVal (a b u : ℚ) : ℚ := a + u * (b - a)

/-- The base_delay chosen by HumanLikeActions.human_scroll for each
behaviour profile (src/c.py lines 273-284): slow 0.8, fast 0.2, random a
uniform draw from the tenth to one (passed in as randomBase), any other
value medium 0.4. -/
def scrollBaseDelay (behavior : String) (randomBase : ℚ) : ℚ :=
  if behavior = "slow" then 4/5
  else if behavior = "fast" then 1/5
  else if behavior = "random" then randomBase
  else 2/5

/-- The per-step inter-scroll pause of human_scroll (src/c.py line 305):
a uniform draw between half the base delay and one and a half times the
base delay, with u the unit draw of that uniform call. -/
def human_scroll_step_delay (behavior : String) (randomBase u : ℚ) : ℚ :=
  uniformVal (scrollBaseDelay behavior randomBase * (1/2))
    (scrollBaseDelay behavior randomBase * (3/2)) u

/-! ## Interaction simulator (class AIBrowserAutomation, src/c.py lines 420-830)

The observable actions against the browser session are modelled as an
event trace. Each random.random draw of the relevant control path is an
explicit rational in the half-open unit interval; choices are explicit
indices. An exception caught inside a step only truncates the trace to a
strict initial segment, so statements that an event never occurs carry
over to interrupted runs. -/

/-- One observable action requested of the browser session. -/
inductive BrowseEvent where
  | navGoto (url : String)
  | searchBoxClick
  | typeQuery (q : String)
  | submitEnter
  | submitButtonClick
  | resultClickAttempt
  | contentClickAttempt
  | browserBack
  | browserForward
  | browserRefresh
  | scrollBottom
  | scrollTop
  | mouseMove
  | scrollSession (behavior : String)
deriving DecidableEq

/-- The random draws and external outcomes consumed by one run of
AIBrowserAutomation.execute_scenario. The fields named Draw are
random.random draws; the membership fields record that random.random
returns a value in the half-open unit interval. searchFound is whether one
of the search-box selectors resolved, and resultWaitOk whether the wait for
the results page succeeded, both outcomes of the external session. -/
structure BrowseRng where
  clickDraw : ℚ
  mouseDraw : ℚ
  backDraw : ℚ
  exploreDraw : ℚ
  submitDraw : ℚ
  relatedGotoDraw : ℚ
  contentDraw : ℚ
  queryChoice : Nat
  exploreChoice : Fin 3
  relatedQueryChoice : Nat
  sectionChoice : Nat
  navSteps : Fin 3
  navChoice : Nat → Fin 5
  searchFound : Bool
  resultWaitOk : Bool
  clickDraw_mem : 0 ≤ clickDraw ∧ clickDraw < 1
  mouseDraw_mem : 0 ≤ mouseDraw ∧ mouseDraw < 1
  backDraw_mem : 0 ≤ backDraw ∧ backDraw < 1
  exploreDraw_mem : 0 ≤ exploreDraw ∧ exploreDraw < 1

/-- AIBrowserAutomation.perform_search (src/c.py lines 535-605): when a
search box is found it is clicked, the query is typed, and the search is
submitted by the Enter key with probability seven tenths, else by the
submit button; the function reports success when the box was found and the
wait for the results page succeeded. When no selector resolves it returns
false having issued no action. -/
def perform_search (q : String) (rng : BrowseRng) : Bool × List BrowseEvent :=
  if rng.searchFound then
    (rng.resultWaitOk,
      [BrowseEvent.searchBoxClick, BrowseEvent.typeQuery q] ++
        (if rng.submitDraw < 7/10 then [BrowseEvent.submitEnter] else [BrowseEvent.submitButtonClick]))
  else (false, [])

/-- AIBrowserAutomation.perform_human_browsing (src/c.py lines 607-632):
a scroll session in the scenario profile; then with probability
click_probability the result-click action try_click_search_result; then
with probability three tenths a random mouse movement; then with
probability back_probability the browser back navigation. -/
def perform_human_browsing (sc : Scenario) (rng : BrowseRng) : List BrowseEvent :=
  [BrowseEvent.scrollSession sc.interaction_pattern.scroll_behavior] ++
    (if rng.clickDraw < sc.interaction_pattern.click_probability
      then [BrowseEvent.resultClickAttempt] else []) ++
    (if rng.mouseDraw < 3/10 then [BrowseEvent.mouseMove] else []) ++
    (if rng.backDraw < sc.interaction_pattern.back_probability
      then [BrowseEvent.browserBack] else [])

/-- The five actions of AIBrowserAutomation.random_navigation in source
order (src/c.py lines 808-814): refresh, back, forward, scroll to the
bottom, scroll to the top. -/
def navActionEvent (i : Fin 5) : BrowseEvent :=
  if i.val = 0 then BrowseEvent.browserRefresh
  else if i.val = 1 then BrowseEvent.browserBack
  else if i.val = 2 then BrowseEvent.browserForward
  else if i.val = 3 then BrowseEvent.scrollBottom
  else BrowseEvent.scrollTop

/-- AIBrowserAutomation.random_navigation (src/c.py lines 803-830): a
randint draw of one to three actions, each chosen among the five actions;
navSteps is the draw minus one. -/
def random_navigation (rng : BrowseRng) : List BrowseEvent :=
  (List.range (rng.navSteps.val + 1)).map (fun k => navActionEvent (rng.navChoice k))

/-- The fourteen additional queries of AIBrowserAutomation.try_related_search
(src/c.py lines 692-707). -/
def additional_queries : List String :=
  ["맛집 추천", "영화 예매", "온라인 쇼핑", "부동산 정보", "여행 정보", "요리 레시피", "운동 방법",
    "주식 정보", "날씨 예보", "교통 정보", "게임 공략", "아르바이트", "중고거래", "배달음식"]

/-- AIBrowserAutomation.try_related_search (src/c.py lines 688-721): with
probability one half a navigation to the portal main page, then a new
perform_search on a query chosen from the additional queries. -/
def try_related_search (rng : BrowseRng) : List BrowseEvent :=
  (if rng.relatedGotoDraw < 1/2 then [BrowseEvent.navGoto "https://www.naver.com"] else []) ++
    (perform_search (additional_queries.getD rng.relatedQueryChoice "맛집 추천") rng).2

/-- The section addresses of AIBrowserAutomation.explore_naver_sections
(src/c.py lines 729-738). -/
def section_urls : List String :=
  ["https://news.naver.com", "https://sports.naver.com", "https://finance.naver.com",
    "https://shopping.naver.com", "https://map.naver.com", "https://weather.naver.com",
    "https://comic.naver.com", "https://cafe.naver.com"]

/-- AIBrowserAutomation.explore_naver_sections (src/c.py lines 723-758):
a navigation to a chosen section, a medium scroll session, and with
probability two fifths a content-click attempt (try_click_content). -/
def explore_naver_sections (rng : BrowseRng) : List BrowseEvent :=
  [BrowseEvent.navGoto (section_urls.getD rng.sectionChoice "https://news.naver.com"),
    BrowseEvent.scrollSession "medium"] ++
    (if rng.contentDraw < 2/5 then [BrowseEvent.contentClickAttempt] else [])

/-- AIBrowserAutomation.perform_additional_exploration (src/c.py lines
675-686): one of the three exploration actions chosen at random, in source
order related search, section exploration, random navigation. -/
def perform_additional_exploration (rng : BrowseRng) : List BrowseEvent :=
  if rng.exploreChoice.val = 0 then try_related_search rng
  else if rng.exploreChoice.val = 1 then explore_naver_sections rng
  else random_navigation rng

/-- AIBrowserAutomation.execute_scenario (src/c.py lines 493-533): navigate
to the portal, choose a query, perform the search; on search success run
perform_human_browsing and, with probability two fifths, the additional
exploration, returning true; on search failure return false. The reading
simulations only sleep and scroll and issue none of the modelled events. -/
def execute_scenario (sc : Scenario) (rng : BrowseRng) : Bool × List BrowseEvent :=
  let q := sc.search_queries.getD rng.queryChoice "오늘 날씨"
  let s := perform_search q rng
  if s.1 then
    (true, [BrowseEvent.navGoto "https://www.naver.com"] ++ s.2 ++
      perform_human_browsing sc rng ++
      (if rng.exploreDraw < 2/5 then perform_additional_exploration rng else []))
  else (false, [BrowseEvent.navGoto "https://www.naver.com"] ++ s.2)

/-- A scenario whose click and back probabilities are both zero. -/
def zeroProbScenario : Scenario :=
  { main_action := "일반적인 검색"
  , search_queries := ["오늘 날씨"]
  , interaction_pattern :=
    { scroll_behavior := "medium"
    , reading_time := 5
    , click_probability := 0
    , back_probability := 0 }
  , navigation_sequence := []
  , human_delays := { typing_delay := 1/5, reading_delay := 3, decision_delay := 2 } }

/-- A concrete draw record under which execute_scenario reaches
random_navigation and random_navigation picks the back action. -/
def cexRng : BrowseRng where
  clickDraw := 1/2
  mouseDraw := 1/2
  backDraw := 1/2
  exploreDraw := 0
  submitDraw := 0
  relatedGotoDraw := 0
  contentDraw := 0
  queryChoice := 0
  exploreChoice := 2
  relatedQueryChoice := 0
  sectionChoice := 0
  navSteps := 0
  navChoice := fun _ => 1
  searchFound := true
  resultWaitOk := true
  clickDraw_mem := by norm_num
  mouseDraw_mem := by norm_num
  backDraw_mem := by norm_num
  exploreDraw_mem := by norm_num

/-! ## Cycle controller (class AdvancedAutomationController, src/c.py lines 896-1185) -/

/-- The session_stats dictionary (src/c.py lines 904-910), without the
scenarios_used list, which no claim concerns. start_time is none until a
repeat or continuous run stores the clock value. -/
structure SessionStats where
  total_cycles : Nat
  successful_cycles : Nat
  failed_cycles : Nat
  start_time : Option ℚ
deriving DecidableEq

/-- The three ways the try body of single_ai_cycle can go: the scenario
execution returns true, it returns false (execute_scenario catches its own
exceptions and returns a boolean), or an exception is raised inside the try
(for instance by the browser construction) and caught by the except clause.
Page analysis, screenshots, browser closing and the airplane cycle all
catch their own exceptions and so raise nothing further. -/
inductive CycleOutcome where
  | scenarioOk
  | scenarioFailed
  | raised
deriving DecidableEq

/-- The observable result of one single_ai_cycle call: the returned
boolean, the updated statistics, and the messages printed on the chosen
path. -/
structure CycleRun where
  returned : Bool
  stats : SessionStats
  log : List String
deriving DecidableEq

/-- AdvancedAutomationController.single_ai_cycle (src/c.py lines 944-1026).
airplaneOk is the result of the device airplane_mode_cycle call, consulted
only in the non-test path after a successful scenario. The finally clause
increments total_cycles on every path. On a raised exception the except
clause increments failed_cycles; on a successful scenario every branch
increments successful_cycles and returns true; on a scenario that returns
false the function returns false having incremented neither
successful_cycles nor failed_cycles. -/
def single_ai_cycle (test_mode : Bool) (airplaneOk : Bool) (oc : CycleOutcome)
    (s : SessionStats) : CycleRun :=
  match oc with
  | CycleOutcome.raised =>
    { returned := false
    , stats := { s with failed_cycles := s.failed_cycles + 1, total_cycles := s.total_cycles + 1 }
    , log := ["AI 사이클 실행 중 오류"] }
  | CycleOutcome.scenarioFailed =>
    { returned := false
    , stats := { s with total_cycles := s.total_cycles + 1 }
    , log := ["AI 시나리오 실행 실패"] }
  | CycleOutcome.scenarioOk =>
    if test_mode then
      { returned := true
      , stats := { s with successful_cycles := s.successful_cycles + 1, total_cycles := s.total_cycles + 1 }
      , log := ["AI 테스트 모드 완료 - 안드로이드 기능 건너뜀"] }
    else if airplaneOk then
      { returned := true
      , stats := { s with successful_cycles := s.successful_cycles + 1, total_cycles := s.total_cycles + 1 }
      , log := ["전체 AI 사이클 완료"] }
    else
      { returned := true
      , stats := { s with successful_cycles := s.successful_cycles + 1, total_cycles := s.total_cycles + 1 }
      , log := ["비행기모드 실패, AI 웹 접속은 성공"] }

/-- The user-visible output of the controller loops, one constructor per
kind of printed line a claim mentions. -/
inductive OutEvent where
  | cycleStart (i : Nat)
  | cycleMsg (m : String)
  | interruptedMsg
  | errorMsg
  | summaryTotal (n : Nat)
  | summarySuccess (n : Nat)
  | summaryFailed (n : Nat)
  | summaryRate (succ total : Nat)
  | summaryElapsed (start now : ℚ)
deriving DecidableEq

/-- AdvancedAutomationController.print_session_summary (src/c.py lines
1168-1185): the three counters, the success rate when at least one cycle
ran, and the elapsed time when a start time was stored. -/
def print_session_summary (s : SessionStats) (now : ℚ) : List OutEvent :=
  [OutEvent.summaryTotal s.total_cycles, OutEvent.summarySuccess s.successful_cycles,
    OutEvent.summaryFailed s.failed_cycles] ++
    (if 0 < s.total_cycles then [OutEvent.summaryRate s.successful_cycles s.total_cycles] else []) ++
    (match s.start_time with
      | some t => [OutEvent.summaryElapsed t now]
      | none => [])

/-- How a controller loop stops: it runs to its natural end, or a
KeyboardInterrupt arrives before cycle k starts, or another exception
escapes before cycle k starts (k counted from zero, so k cycles have
completed; a cycle body itself catches its exceptions, so interruption
points sit between cycles and during the inter-cycle sleeps). -/
inductive LoopExit where
  | normal
  | keyboard (k : Nat)
  | failure (k : Nat)
deriving DecidableEq

/-- The number of cycles a loop of n planned cycles completes under the
given exit behaviour. -/
def exitLimit (n : Nat) (ex : LoopExit) : Nat :=
  match ex with
  | LoopExit.normal => n
  | LoopExit.keyboard k => min k n
  | LoopExit.failure k => min k n

/-- Runs the first count cycles, threading the statistics and collecting
the output; ap and oc give each cycle its airplane outcome and its
scenario outcome. -/
def runCycles (tm : Bool) (ap : Nat → Bool) (oc : Nat → CycleOutcome) (count : Nat)
    (s : SessionStats) : SessionStats × List OutEvent :=
  (List.range count).foldl
    (fun acc i =>
      let r := single_ai_cycle tm (ap i) (oc i) acc.1
      (r.stats, acc.2 ++ [OutEvent.cycleStart (i + 1)] ++ r.log.map OutEvent.cycleMsg))
    (s, [])

/-- AdvancedAutomationController.repeat_ai_cycles (src/c.py lines
1028-1095): stores the start time, runs the planned cycles until the loop
ends or an interrupt or exception stops it, prints the matching message for
a caught interrupt or exception, and in the finally clause (whose browser
cleanup catches its own failures) prints the session summary. now is the
clock at entry and endNow the clock at the summary. The message printed by
the except clauses when an interrupt or exception actually stopped a loop
of repeat_count cycles is loopExitLog. -/
def loopExitLog (repeat_count : Nat) (ex : LoopExit) : List OutEvent :=
  match ex with
  | LoopExit.normal => []
  | LoopExit.keyboard k => if k < repeat_count then [OutEvent.interruptedMsg] else []
  | LoopExit.failure k => if k < repeat_count then [OutEvent.errorMsg] else []

def repeat_ai_cycles (repeat_count : Nat) (now : ℚ) (tm : Bool) (ap : Nat → Bool)
    (oc : Nat → CycleOutcome) (ex : LoopExit) (endNow : ℚ)
    (s0 : SessionStats) : SessionStats × List OutEvent :=
  let s1 := { s0 with start_time := some now }
  let body := runCycles tm ap oc (exitLimit repeat_count ex) s1
  (body.1, body.2 ++ loopExitLog repeat_count ex ++ print_session_summary body.1 endNow)

/-- AdvancedAutomationController.continuous_ai_mode (src/c.py lines
1097-1166): the running flag is set and never cleared inside the loop, so
the loop stops only when a KeyboardInterrupt (kb true) or another
exception (kb false) arrives before cycle k starts; the finally clause
prints the session summary. -/
def continuous_ai_mode (now : ℚ) (tm : Bool) (ap : Nat → Bool) (oc : Nat → CycleOutcome)
    (kb : Bool) (k : Nat) (endNow : ℚ) (s0 : SessionStats) : SessionStats × List OutEvent :=
  let s1 := { s0 with start_time := some now }
  let body := runCycles tm ap oc k s1
  (body.1, body.2 ++ [if kb then OutEvent.interruptedMsg else OutEvent.errorMsg] ++
    print_session_summary body.1 endNow)

/-! ## Theorems -/

/-- Claim C7 counterexample: the adb devices command can complete with a
nonzero exit status while its captured stdout still holds the usual header
line, whose word devices contains the text device; check_device_connection
ignores the exit status and returns true there, not false as the claim
requires on a failure. -/
theorem C7_counterexample :
    check_device_connection (RunResult.completed 1 "List of devices attached") = true := by
  decide

/-- Claim C7 as amended: both functions always return a boolean and let no
exception past their boundary; set_airplane_mode returns true exactly when
both adb commands run and exit with status zero, and false on every
failure; check_device_connection returns false when the command raises, but
on a completed run it ignores the exit status and answers whether the text
device occurs in the captured stdout. -/
theorem C7_amended (c1 c2 : RunResult) :
    check_device_connection RunResult.raised = false ∧
    (∀ rc out, check_device_connection (RunResult.completed rc out) = strContains out "device") ∧
    check_device_connection_c RunResult.raised = false ∧
    (set_airplane_mode c1 c2 = true ↔
      runChecked c1 = Except.ok () ∧ runChecked c2 = Except.ok ()) := by
  refine ⟨rfl, fun rc out => rfl, rfl, ?_⟩
  cases h1 : runChecked c1 with
  | error e => simp [set_airplane_mode, h1, Except.bind, bind]
  | ok u =>
    cases h2 : runChecked c2 with
    | error e => simp [set_airplane_mode, h1, h2, Except.bind, bind]
    | ok v => simp [set_airplane_mode, h1, h2, Except.bind, bind]

/-- Claim C10: airplane_mode_cycle returns true exactly when the enable
call and the disable call both succeed; and when the enable call succeeds
while the disable call fails, it returns false with the device mode still
enabled, after exactly the two set calls, with no rollback or retry. -/
theorem C10_cycle_not_atomic (e1 e2 d1 d2 : RunResult) (mode : Bool) :
    ((airplane_mode_cycle e1 e2 d1 d2 mode).1
        = (set_airplane_mode e1 e2 && set_airplane_mode d1 d2)) ∧
    (set_airplane_mode e1 e2 = true → set_airplane_mode d1 d2 = false →
      airplane_mode_cycle e1 e2 d1 d2 mode = (false, true, 2)) := by
  constructor
  · unfold airplane_mode_cycle
    cases h1 : set_airplane_mode e1 e2 <;> cases h2 : set_airplane_mode d1 d2 <;> simp [h1, h2]
  · intro h1 h2
    unfold airplane_mode_cycle
    simp [h1, h2]

/-- Witness for C10: enable commands both succeed, the first disable
command raises. -/
theorem C10_witness :
    airplane_mode_cycle (RunResult.completed 0 "") (RunResult.completed 0 "")
        RunResult.raised RunResult.raised false = (false, true, 2) :=
  (C10_cycle_not_atomic (RunResult.completed 0 "") (RunResult.completed 0 "")
    RunResult.raised RunResult.raised false).2 (by decide) (by decide)

/-- The base delay of the slow profile. -/
theorem scrollBaseDelay_slow (rb : ℚ) : scrollBaseDelay "slow" rb = 4/5 := rfl

/-- The base delay of the fast profile. -/
theorem scrollBaseDelay_fast (rb : ℚ) : scrollBaseDelay "fast" rb = 1/5 := rfl

/-- The base delay of the medium profile. -/
theorem scrollBaseDelay_medium (rb : ℚ) : scrollBaseDelay "medium" rb = 2/5 := rfl

/-- Claim C9 counterexample: the slow-profile inter-scroll pause is a
uniform draw from two fifths to six fifths of a second, so the draw at the
lower end produces two fifths, below the documented lower bound of three
fifths. -/
theorem C9_counterexample :
    human_scroll_step_delay "slow" 0 0 = 2/5 ∧
    ¬ ((3/5 : ℚ) ≤ human_scroll_step_delay "slow" 0 0) := by
  constructor <;> norm_num [human_scroll_step_delay, scrollBaseDelay, uniformVal]

/-- Claim C9 as amended: for every unit draw the slow-profile pause lies
between two fifths and six fifths of a second, the fast-profile pause
between one tenth and three tenths, and the medium-profile pause between
one fifth and three fifths; each range is half to three halves of the
profile base delay. -/
theorem C9_amended (rb u : ℚ) (h0 : 0 ≤ u) (h1 : u ≤ 1) :
    (2/5 ≤ human_scroll_step_delay "slow" rb u ∧ human_scroll_step_delay "slow" rb u ≤ 6/5) ∧
    (1/10 ≤ human_scroll_step_delay "fast" rb u ∧ human_scroll_step_delay "fast" rb u ≤ 3/10) ∧
    (1/5 ≤ human_scroll_step_delay "medium" rb u ∧
      human_scroll_step_delay "medium" rb u ≤ 3/5) := by
  simp only [human_scroll_step_delay, scrollBaseDelay_slow, scrollBaseDelay_fast,
    scrollBaseDelay_medium, uniformVal]
  refine ⟨⟨by nlinarith, by nlinarith⟩, ⟨by nlinarith, by nlinarith⟩, by nlinarith, by nlinarith⟩

/-- Witness for C9 at the middle unit draw. -/
theorem C9_witness :
    (2/5 ≤ human_scroll_step_delay "slow" 0 (1/2) ∧
      human_scroll_step_delay "slow" 0 (1/2) ≤ 6/5) ∧
    (1/10 ≤ human_scroll_step_delay "fast" 0 (1/2) ∧
      human_scroll_step_delay "fast" 0 (1/2) ≤ 3/10) ∧
    (1/5 ≤ human_scroll_step_delay "medium" 0 (1/2) ∧
      human_scroll_step_delay "medium" 0 (1/2) ≤ 3/5) :=
  C9_amended 0 (1/2) (by norm_num) (by norm_num)

/-- Claim C1 exhibit of the code bug: a cycle whose scenario execution
returns false without raising increments total_cycles only, leaving the
statistics at one total, zero successful and zero failed cycles, so
total_cycles no longer equals successful_cycles plus failed_cycles. -/
theorem C1_count_bug :
    (single_ai_cycle false true CycleOutcome.scenarioFailed ⟨0, 0, 0, none⟩).stats
        = ⟨1, 0, 0, none⟩ ∧
    (single_ai_cycle false true CycleOutcome.scenarioFailed ⟨0, 0, 0, none⟩).stats.total_cycles ≠
      (single_ai_cycle false true CycleOutcome.scenarioFailed ⟨0, 0, 0, none⟩).stats.successful_cycles
        + (single_ai_cycle false true CycleOutcome.scenarioFailed
            ⟨0, 0, 0, none⟩).stats.failed_cycles := by
  constructor
  · rfl
  · decide

/-- Claim C6: when the scenario succeeds in the non-test mode and the
airplane toggle fails, single_ai_cycle still returns true, counts the cycle
as successful, leaves failed_cycles alone, and prints the message that the
airplane mode failed while the web access succeeded. -/
theorem C6_airplane_failure_counts_success (s : SessionStats) :
    (single_ai_cycle false false CycleOutcome.scenarioOk s).returned = true ∧
    (single_ai_cycle false false CycleOutcome.scenarioOk s).stats.successful_cycles
        = s.successful_cycles + 1 ∧
    (single_ai_cycle false false CycleOutcome.scenarioOk s).stats.failed_cycles
        = s.failed_cycles ∧
    (single_ai_cycle false false CycleOutcome.scenarioOk s).log
        = ["비행기모드 실패, AI 웹 접속은 성공"] :=
  ⟨rfl, rfl, rfl, rfl⟩

/-- Claim C2 counterexample: calling the repeat operation with count zero
on statistics whose start time is unset stores the current clock into
start_time, so SessionStats is not left unchanged in every field. -/
theorem C2_counterexample :
    (repeat_ai_cycles 0 100 false (fun _ => true) (fun _ => CycleOutcome.scenarioOk)
        LoopExit.normal 100 ⟨5, 3, 2, none⟩).1.start_time ≠
      (⟨5, 3, 2, none⟩ : SessionStats).start_time := by
  decide

/-- Claim C2 as amended: the repeat operation with count zero performs no
cycle and leaves the three counters unchanged, but sets start_time to the
clock value at the call. -/
theorem C2_repeat_zero (now endNow : ℚ) (tm : Bool) (ap : Nat → Bool)
    (oc : Nat → CycleOutcome) (ex : LoopExit) (s0 : SessionStats) :
    (repeat_ai_cycles 0 now tm ap oc ex endNow s0).1.total_cycles = s0.total_cycles ∧
    (repeat_ai_cycles 0 now tm ap oc ex endNow s0).1.successful_cycles = s0.successful_cycles ∧
    (repeat_ai_cycles 0 now tm ap oc ex endNow s0).1.failed_cycles = s0.failed_cycles ∧
    (repeat_ai_cycles 0 now tm ap oc ex endNow s0).1.start_time = some now ∧
    ∀ i, OutEvent.cycleStart i ∉ (repeat_ai_cycles 0 now tm ap oc ex endNow s0).2 := by
  have hrep : repeat_ai_cycles 0 now tm ap oc ex endNow s0 =
      ({ s0 with start_time := some now },
        print_session_summary { s0 with start_time := some now } endNow) := by
    cases ex <;>
      simp [repeat_ai_cycles, exitLimit, runCycles, loopExitLog]
  rw [hrep]
  refine ⟨rfl, rfl, rfl, rfl, ?_⟩
  intro i
  unfold print_session_summary
  split_ifs <;> simp

/-- In every output list extended on the left, the summary block of the
given statistics contributes its total-cycles line. -/
theorem summaryTotal_mem_summary (s : SessionStats) (t : ℚ) (l : List OutEvent) :
    OutEvent.summaryTotal s.total_cycles ∈ l ++ print_session_summary s t := by
  simp [print_session_summary]

/-- Claim C8: both the repeat operation and the continuous-run operation
end their output with the session summary of the final statistics, on every
termination path (normal completion of the loop, a keyboard interrupt, or
another exception), and in particular the printed total cycle count always
appears in the output. -/
theorem C8_summary_always_printed (n : Nat) (now endNow : ℚ) (tm : Bool) (ap : Nat → Bool)
    (oc : Nat → CycleOutcome) (ex : LoopExit) (kb : Bool) (k : Nat) (s0 : SessionStats) :
    (∃ pre, (repeat_ai_cycles n now tm ap oc ex endNow s0).2 =
        pre ++ print_session_summary (repeat_ai_cycles n now tm ap oc ex endNow s0).1 endNow) ∧
    OutEvent.summaryTotal (repeat_ai_cycles n now tm ap oc ex endNow s0).1.total_cycles ∈
        (repeat_ai_cycles n now tm ap oc ex endNow s0).2 ∧
    (∃ pre, (continuous_ai_mode now tm ap oc kb k endNow s0).2 =
        pre ++ print_session_summary (continuous_ai_mode now tm ap oc kb k endNow s0).1 endNow) ∧
    OutEvent.summaryTotal (continuous_ai_mode now tm ap oc kb k endNow s0).1.total_cycles ∈
        (continuous_ai_mode now tm ap oc kb k endNow s0).2 := by
  have h1 : (repeat_ai_cycles n now tm ap oc ex endNow s0).2 =
      ((runCycles tm ap oc (exitLimit n ex) { s0 with start_time := some now }).2
          ++ loopExitLog n ex)
        ++ print_session_summary (repeat_ai_cycles n now tm ap oc ex endNow s0).1 endNow := by
    simp only [repeat_ai_cycles, List.append_assoc]
  have h2 : (continuous_ai_mode now tm ap oc kb k endNow s0).2 =
      ((runCycles tm ap oc k { s0 with start_time := some now }).2
          ++ [if kb then OutEvent.interruptedMsg else OutEvent.errorMsg])
        ++ print_session_summary (continuous_ai_mode now tm ap oc kb k endNow s0).1 endNow := by
    simp only [continuous_ai_mode, List.append_assoc]
  refine ⟨⟨_, h1⟩, ?_, ⟨_, h2⟩, ?_⟩
  · rw [h1]
    exact summaryTotal_mem_summary _ _ _
  · rw [h2]
    exact summaryTotal_mem_summary _ _ _

/-- The chosen fallback scenario is one of the four table entries. -/
theorem get_fallback_mem (rng : RandomSource) :
    get_fallback_scenario rng ∈ fallbackTable rng := by
  unfold get_fallback_scenario
  have h4 := rng.choice4.isLt
  have h : rng.choice4.val = 0 ∨ rng.choice4.val = 1 ∨ rng.choice4.val = 2 ∨
      rng.choice4.val = 3 := by omega
  rcases h with h | h | h | h <;> rw [h] <;> simp [fallbackTable]

/-- The first fallback preset satisfies the data-model invariants. -/
theorem validScenario_fallback1 (rng : RandomSource) : validScenario (fallback1 rng) := by
  have h := (rng.randint_mem 3 8 (by norm_num)).1
  refine ⟨by norm_num [fallback1], by norm_num [fallback1], by norm_num [fallback1],
    by norm_num [fallback1], ?_⟩
  show (0 : ℚ) ≤ (rng.randintD 3 8 : ℚ)
  exact_mod_cast le_trans (by norm_num) h

/-- The second fallback preset satisfies the data-model invariants. -/
theorem validScenario_fallback2 (rng : RandomSource) : validScenario (fallback2 rng) := by
  have h := (rng.randint_mem 5 12 (by norm_num)).1
  refine ⟨by norm_num [fallback2], by norm_num [fallback2], by norm_num [fallback2],
    by norm_num [fallback2], ?_⟩
  show (0 : ℚ) ≤ (rng.randintD 5 12 : ℚ)
  exact_mod_cast le_trans (by norm_num) h

/-- The third fallback preset satisfies the data-model invariants. -/
theorem validScenario_fallback3 (rng : RandomSource) : validScenario (fallback3 rng) := by
  have h := (rng.randint_mem 4 9 (by norm_num)).1
  refine ⟨by norm_num [fallback3], by norm_num [fallback3], by norm_num [fallback3],
    by norm_num [fallback3], ?_⟩
  show (0 : ℚ) ≤ (rng.randintD 4 9 : ℚ)
  exact_mod_cast le_trans (by norm_num) h

/-- The fourth fallback preset satisfies the data-model invariants. -/
theorem validScenario_fallback4 (rng : RandomSource) : validScenario (fallback4 rng) := by
  have h := (rng.randint_mem 6 15 (by norm_num)).1
  refine ⟨by norm_num [fallback4], by norm_num [fallback4], by norm_num [fallback4],
    by norm_num [fallback4], ?_⟩
  show (0 : ℚ) ≤ (rng.randintD 6 15 : ℚ)
  exact_mod_cast le_trans (by norm_num) h

/-- Every entry of the fallback table satisfies the data-model invariants,
for every outcome of the random draws. -/
theorem fallbackTable_valid (rng : RandomSource) :
    ∀ sc ∈ fallbackTable rng, validScenario sc := by
  intro sc hsc
  simp only [fallbackTable, List.mem_cons, List.not_mem_nil, or_false] at hsc
  rcases hsc with h | h | h | h <;> subst h
  · exact validScenario_fallback1 rng
  · exact validScenario_fallback2 rng
  · exact validScenario_fallback3 rng
  · exact validScenario_fallback4 rng

/-- Claim C4: whenever the external text-generation call fails (missing
API key, raised request, non-200 status, or unparsable body), the scenario
source still returns a value (the embedding is a total function, matching
the try and except structure of the code), the value is one of the fixed
in-memory fallback presets, that preset satisfies the structural
invariants, and the table holds at least three presets. -/
theorem C4_failure_falls_back (rng : RandomSource) (api_key : Option String)
    (beh : ApiBehavior) (h : apiFailed api_key beh = true) :
    generate_browsing_scenario rng api_key beh ∈ fallbackTable rng ∧
    validScenario (generate_browsing_scenario rng api_key beh) ∧
    3 ≤ (fallbackTable rng).length := by
  have hmem : generate_browsing_scenario rng api_key beh = get_fallback_scenario rng := by
    cases api_key with
    | none => rfl
    | some key =>
      cases beh with
      | raises => rfl
      | response status parsed =>
        unfold apiFailed at h
        simp only [bne_iff_ne, ne_eq, Bool.or_eq_true, decide_eq_true_eq,
          Option.isNone_iff_eq_none] at h
        have hred : generate_browsing_scenario rng (some key) (ApiBehavior.response status parsed)
            = if status = 200 then parsed.getD (get_fallback_scenario rng)
              else get_fallback_scenario rng := by
          cases parsed <;> rfl
        rw [hred]
        rcases h with h | h
        · rw [if_neg h]
        · subst h
          split_ifs <;> rfl
  rw [hmem]
  exact ⟨get_fallback_mem rng, fallbackTable_valid rng _ (get_fallback_mem rng),
    by simp [fallbackTable]⟩

/-- Witness for C4: missing API key. -/
theorem C4_witness :
    generate_browsing_scenario rng0 none ApiBehavior.raises ∈ fallbackTable rng0 ∧
    validScenario (generate_browsing_scenario rng0 none ApiBehavior.raises) ∧
    3 ≤ (fallbackTable rng0).length :=
  C4_failure_falls_back rng0 none ApiBehavior.raises rfl

/-- Claim C5 counterexample: when the external call succeeds with a parsed
body whose click probability is two, the scenario source returns it
unvalidated, and it violates the data-model invariants. -/
theorem C5_counterexample :
    generate_browsing_scenario rng0 (some "key") (ApiBehavior.response 200 (some badScenario))
        = badScenario ∧ ¬ validScenario badScenario :=
  ⟨rfl, by decide⟩

/-- Claim C5 as amended: every scenario drawn from the fallback table
satisfies the data-model invariants; scenarios parsed from a successful
external response are returned without validation and need not. -/
theorem C5_fallback_invariants (rng : RandomSource) :
    ∀ sc ∈ fallbackTable rng, validScenario sc :=
  fallbackTable_valid rng

/-- Witness for C5 at the first preset of the concrete random source. -/
theorem C5_witness : validScenario (fallback1 rng0) :=
  C5_fallback_invariants rng0 (fallback1 rng0) (by simp [fallbackTable])


/-- No random-navigation action is the result-click action. -/
theorem navActionEvent_ne_resultClick (i : Fin 5) :
    navActionEvent i ≠ BrowseEvent.resultClickAttempt := by
  unfold navActionEvent
  split_ifs <;> simp

/-- The result-click action and the back navigation are never issued by
perform_search. -/
theorem search_no_click_no_back (q : String) (rng : BrowseRng) :
    BrowseEvent.resultClickAttempt ∉ (perform_search q rng).2 ∧
    BrowseEvent.browserBack ∉ (perform_search q rng).2 := by
  unfold perform_search
  split_ifs <;> simp

/-- The result-click action and the back navigation are never issued by
try_related_search. -/
theorem related_no_click_no_back (rng : BrowseRng) :
    BrowseEvent.resultClickAttempt ∉ try_related_search rng ∧
    BrowseEvent.browserBack ∉ try_related_search rng := by
  have hs := search_no_click_no_back (additional_queries.getD rng.relatedQueryChoice "맛집 추천") rng
  unfold try_related_search
  constructor <;>
    · intro hx
      rcases List.mem_append.mp hx with hx | hx
      · split_ifs at hx <;> simp at hx
      · first
        | exact hs.1 hx
        | exact hs.2 hx

/-- The result-click action and the back navigation are never issued by
explore_naver_sections (content clicks are a distinct action). -/
theorem sections_no_click_no_back (rng : BrowseRng) :
    BrowseEvent.resultClickAttempt ∉ explore_naver_sections rng ∧
    BrowseEvent.browserBack ∉ explore_naver_sections rng := by
  unfold explore_naver_sections
  constructor <;> split_ifs <;> simp

/-- The result-click action is never issued by random_navigation. -/
theorem nav_no_resultClick (rng : BrowseRng) :
    BrowseEvent.resultClickAttempt ∉ random_navigation rng := by
  unfold random_navigation
  simp only [List.mem_map, List.mem_range]
  rintro ⟨k, -, hk⟩
  exact navActionEvent_ne_resultClick (rng.navChoice k) hk

/-- In the additional exploration, the result-click action never occurs,
and the back navigation can occur only on the random-navigation branch. -/
theorem exploration_click_back (rng : BrowseRng) :
    BrowseEvent.resultClickAttempt ∉ perform_additional_exploration rng ∧
    (BrowseEvent.browserBack ∈ perform_additional_exploration rng →
      rng.exploreChoice.val = 2) := by
  unfold perform_additional_exploration
  split_ifs with h0 h1
  · exact ⟨(related_no_click_no_back rng).1,
      fun hb => absurd hb (related_no_click_no_back rng).2⟩
  · exact ⟨(sections_no_click_no_back rng).1,
      fun hb => absurd hb (sections_no_click_no_back rng).2⟩
  · have h2 : rng.exploreChoice.val = 2 := by
      have := rng.exploreChoice.isLt
      omega
    exact ⟨nav_no_resultClick rng, fun _ => h2⟩

/-- With both probabilities zero, perform_human_browsing issues neither the
result-click action nor the back navigation, for every draw outcome. -/
theorem browsing_zero_prob (sc : Scenario) (rng : BrowseRng)
    (hcp : sc.interaction_pattern.click_probability = 0)
    (hbp : sc.interaction_pattern.back_probability = 0) :
    BrowseEvent.resultClickAttempt ∉ perform_human_browsing sc rng ∧
    BrowseEvent.browserBack ∉ perform_human_browsing sc rng := by
  have hc : ¬ rng.clickDraw < sc.interaction_pattern.click_probability := by
    rw [hcp]
    exact not_lt.mpr rng.clickDraw_mem.1
  have hb : ¬ rng.backDraw < sc.interaction_pattern.back_probability := by
    rw [hbp]
    exact not_lt.mpr rng.backDraw_mem.1
  unfold perform_human_browsing
  rw [if_neg hc, if_neg hb]
  constructor <;> split_ifs <;> simp

/-- The trace of execute_scenario: the entry navigation, the search
actions, and on search success the browsing actions followed by the
optional additional exploration. -/
theorem execute_scenario_trace (sc : Scenario) (rng : BrowseRng) :
    (execute_scenario sc rng).2 =
      ([BrowseEvent.navGoto "https://www.naver.com"] ++
          (perform_search (sc.search_queries.getD rng.queryChoice "오늘 날씨") rng).2) ++
        (if (perform_search (sc.search_queries.getD rng.queryChoice "오늘 날씨") rng).1 = true then
          perform_human_browsing sc rng ++
            (if rng.exploreDraw < 2/5 then perform_additional_exploration rng else [])
        else []) := by
  simp only [execute_scenario]
  generalize perform_search (sc.search_queries.getD rng.queryChoice "오늘 날씨") rng = s
  by_cases h : s.1 = true
  · rw [if_pos h, if_pos h]
    simp [List.append_assoc]
  · rw [if_neg h, if_neg h]
    simp

/-- Claim C3 counterexample: with click and back probabilities both zero,
there is an outcome of the random source (search succeeds, the two-fifths
additional-exploration draw fires, random navigation is chosen, and its
action draw picks the back action) under which executing the scenario
issues the browser back navigation. -/
theorem C3_counterexample :
    zeroProbScenario.interaction_pattern.click_probability = 0 ∧
    zeroProbScenario.interaction_pattern.back_probability = 0 ∧
    BrowseEvent.browserBack ∈ (execute_scenario zeroProbScenario cexRng).2 := by
  refine ⟨rfl, rfl, ?_⟩
  have h1 : (perform_search (zeroProbScenario.search_queries.getD cexRng.queryChoice "오늘 날씨")
      cexRng).1 = true := rfl
  have h2 : cexRng.exploreDraw < 2/5 := by
    show (0 : ℚ) < 2/5
    norm_num
  rw [execute_scenario_trace, if_pos h1, if_pos h2]
  apply List.mem_append_right
  apply List.mem_append_right
  have h3 : perform_additional_exploration cexRng = [BrowseEvent.browserBack] := rfl
  rw [h3]
  exact List.mem_singleton.mpr rfl

/-- Claim C3 as amended: with click probability zero the result-click
action is never issued, for every outcome of the random source; with back
probability zero the probability-gated back navigation of
perform_human_browsing never fires, and any back navigation that does
occur comes from the additional-exploration path having chosen random
navigation. -/
theorem C3_zero_prob (sc : Scenario) (rng : BrowseRng)
    (hcp : sc.interaction_pattern.click_probability = 0)
    (hbp : sc.interaction_pattern.back_probability = 0) :
    BrowseEvent.resultClickAttempt ∉ (execute_scenario sc rng).2 ∧
    (BrowseEvent.browserBack ∈ (execute_scenario sc rng).2 →
      rng.exploreDraw < 2/5 ∧ rng.exploreChoice.val = 2) := by
  have hsearch := search_no_click_no_back (sc.search_queries.getD rng.queryChoice "오늘 날씨") rng
  have hbrowse := browsing_zero_prob sc rng hcp hbp
  have hexp := exploration_click_back rng
  constructor
  · intro hx
    rw [execute_scenario_trace] at hx
    rcases List.mem_append.mp hx with hx | hx
    · rcases List.mem_append.mp hx with hx | hx
      · simp at hx
      · exact hsearch.1 hx
    · split_ifs at hx with h1 h2
      · rcases List.mem_append.mp hx with hx | hx
        · exact hbrowse.1 hx
        · exact hexp.1 hx
      · rw [List.append_nil] at hx
        exact hbrowse.1 hx
      · simp at hx
  · intro hx
    rw [execute_scenario_trace] at hx
    rcases List.mem_append.mp hx with hx | hx
    · rcases List.mem_append.mp hx with hx | hx
      · simp at hx
      · exact absurd hx hsearch.2
    · split_ifs at hx with h1 h2
      · rcases List.mem_append.mp hx with hx | hx
        · exact absurd hx hbrowse.2
        · exact ⟨h2, hexp.2 hx⟩
      · rw [List.append_nil] at hx
        exact absurd hx hbrowse.2
      · simp at hx

/-- Witness for C3 at the concrete zero-probability scenario and the
concrete draw record. -/
theorem C3_witness :
    BrowseEvent.resultClickAttempt ∉ (execute_scenario zeroProbScenario cexRng).2 ∧
    (BrowseEvent.browserBack ∈ (execute_scenario zeroProbScenario cexRng).2 →
      cexRng.exploreDraw < 2/5 ∧ cexRng.exploreChoice.val = 2) :=
  C3_zero_prob zeroProbScenario cexRng rfl rfl

/-- Witness for C2 at a concrete call of the repeat operation with count
zero. -/
theorem C2_witness :
    (repeat_ai_cycles 0 50 true (fun _ => true) (fun _ => CycleOutcome.raised) LoopExit.normal 60
        ⟨1, 1, 0, none⟩).1.start_time = some 50 ∧
    OutEvent.cycleStart 1 ∉ (repeat_ai_cycles 0 50 true (fun _ => true)
        (fun _ => CycleOutcome.raised) LoopExit.normal 60 ⟨1, 1, 0, none⟩).2 :=
  ⟨(C2_repeat_zero 50 60 true (fun _ => true) (fun _ => CycleOutcome.raised) LoopExit.normal
      ⟨1, 1, 0, none⟩).2.2.2.1,
    (C2_repeat_zero 50 60 true (fun _ => true) (fun _ => CycleOutcome.raised) LoopExit.normal
      ⟨1, 1, 0, none⟩).2.2.2.2 1⟩
